import Mathlib

/-!
Shallow embedding of `src/comfy_pack/core/run.py` (engine lifecycle and
job-execution protocol of comfy-pack-Litserve), together with theorems
settling the claims about it.

Modelling conventions:
* Python exceptions become the inductive `PyError`; a `try/except` block
  becomes a `match` on an `Except`-valued computation.
* The engine's HTTP surface is abstracted by the `Engine` record: the
  response to the single submission POST, and the response to the k-th
  status poll.  JSON objects are association lists keyed by strings, so a
  missing key (Python `KeyError`) is a failed `List.lookup`.
* Wall-clock time in the polling loops advances one second per failed
  attempt (the `time.sleep(1)` in the source); an integer `timeout` of
  `t` seconds therefore allows exactly `t` attempts, modelled as fuel.
* Network requests, sleeps and directory creations performed by a call are
  collected in a `List Event` trace so that claims about "no request is
  issued" or "pauses 1 second" are statable.
-/

deriving instance DecidableEq for Except

namespace ComfyPack

/-- A transport-layer failure (an exception raised by `urllib.request.urlopen`). -/
structure NetErr where
  msg : String
deriving DecidableEq

/-- The Python exceptions raised by `run.py`:
`KeyError` (missing JSON field), `TimeoutError`, transport errors from
`urlopen`, and `RuntimeError` (the wrapping used by the module). -/
inductive PyError where
  | keyError (key : String)
  | timeoutError (msg : String)
  | urlError (e : NetErr)
  | runtimeError (msg : String)
deriving DecidableEq

/-- Rendering of an exception inside an f-string, as in
`RuntimeError(f"Workflow execution failed: {e}")`.  (Python renders a
`KeyError` with the key quoted; we render the bare key.) -/
def PyError.str : PyError → String
  | .keyError k => k
  | .timeoutError m => m
  | .urlError e => e.msg
  | .runtimeError m => m

/-- Observable actions of a `run_workflow` call: the submission POST to
`/prompt`, the k-th status GET to `history-by-id path`, a
`time.sleep` pause, and a `mkdir` of an output directory. -/
inductive Event where
  | submitReq
  | pollReq (promptId : String) (k : Nat)
  | sleep (secs : Nat)
  | mkdir (path : String)
deriving DecidableEq

/-- Whether an event is a status-poll request. -/
def Event.isPollReq : Event → Bool
  | .pollReq _ _ => true
  | _ => false

/-- The outputs collection of a history record (Python dict; truthiness is
non-emptiness). -/
abbrev Outputs := List (String × String)

/-- A JSON object body, as an association list. -/
abbrev JsonObj := List (String × String)

/-- A history record: a JSON object whose "outputs" key holds the outputs
collection. -/
abbrev HistRecord := List (String × Outputs)

/-- The engine as seen over HTTP by `run_workflow`: the response to the one
submission POST of the prepared workflow, the response to the k-th status
poll, and the value the external output resolver
(`retrieve_workflow_outputs`) returns on success. -/
structure Engine where
  submitResp : Except NetErr JsonObj
  history : Nat → Except NetErr HistRecord
  retrieved : String

/-- The completion-polling loop of `run_workflow` (source lines 260-270),
starting at attempt `k` with `fuel` seconds left of the time budget:

`while time.time() - start_time < timeout:` fetch `history-by-id path`;
`if history["outputs"]: break`; `time.sleep(1)`; on loop exhaustion the
`else:` clause raises `TimeoutError("Workflow execution timed out")`.
A transport error or a record without an "outputs" key escapes the loop
as the corresponding exception. -/
def pollGo (eng : Engine) (pid : String) (k : Nat) : Nat → Except PyError Unit × List Event
  | 0 => (.error (.timeoutError "Workflow execution timed out"), [])
  | fuel + 1 =>
    match eng.history k with
    | .error e => (.error (.urlError e), [.pollReq pid k])
    | .ok record =>
      match record.lookup "outputs" with
      | none => (.error (.keyError "outputs"), [.pollReq pid k])
      | some outs =>
        if outs.isEmpty then
          let rest := pollGo eng pid (k + 1) fuel
          (rest.1, .pollReq pid k :: .sleep 1 :: rest.2)
        else (.ok (), [.pollReq pid k])

/-- The body of the `try:` block of `run_workflow` (source lines 250-273):
POST the prepared workflow to `/prompt`, read `"prompt_id"` from the
response body (`KeyError` if absent), then run the completion-poll loop. -/
def run_workflow_try (eng : Engine) (timeout : Nat) : Except PyError Unit × List Event :=
  match eng.submitResp with
  | .error e => (.error (.urlError e), [.submitReq])
  | .ok body =>
    match body.lookup "prompt_id" with
    | none => (.error (.keyError "prompt_id"), [.submitReq])
    | some pid =>
      let p := pollGo eng pid 0 timeout
      (p.1, .submitReq :: p.2)

/-- `run_workflow` (source lines 206-278).  When `output_dir` is absent an
output directory `workspace/output/<uuid4>` is created; the workflow is
deep-copied and populated (modelled separately by `prepare_workflow`); the
`try:` body submits and polls; the `except:` clause re-raises a
`TimeoutError` unchanged and wraps every other exception into
`RuntimeError("Workflow execution failed: ...")`.  On success it returns the
result of the external `retrieve_workflow_outputs`.  `host`, `port` and
`verbose` are carried as in the source signature; the `Engine` record
already fixes the responses of the endpoint addressed by `host`/`port`. -/
def run_workflow (eng : Engine) (host : String) (port : Nat) (output_dir : Option String)
    (timeout : Nat) (verbose : Nat) (workspace : String) (uuid : String) :
    Except PyError String × List Event :=
  let dirEvents : List Event :=
    match output_dir with
    | none => [.mkdir (workspace ++ "/output/" ++ uuid)]
    | some _ => []
  let t := run_workflow_try eng timeout
  let result : Except PyError String :=
    match t.1 with
    | .ok _ => .ok eng.retrieved
    | .error (.timeoutError m) => .error (.timeoutError m)
    | .error e => .error (.runtimeError ("Workflow execution failed: " ++ e.str))
  (result, dirEvents ++ t.2)

/-- Outcome of the loop-back `socket.connect` attempt made by
`_is_port_in_use`: the connection is accepted, refused, or fails with some
other exception (timeout, resolution failure, ...). -/
inductive ConnectOutcome where
  | success
  | refused
  | otherError
deriving DecidableEq

/-- `_is_port_in_use` (source lines 32-43): a successful connect means the
port is in use; `ConnectionRefusedError` means it is free; any other
exception is conservatively treated as in use. -/
def _is_port_in_use (connect : Nat → ConnectOutcome) (port : Nat) : Bool :=
  match connect port with
  | .success => true
  | .refused => false
  | .otherError => true

/-- Destination of the subprocess's standard output/error: a captured pipe
(`subprocess.PIPE`), inherited from the parent (`None`), or the discard sink
(`subprocess.DEVNULL`, which the source never selects). -/
inductive StdioDest where
  | pipe
  | inherit
  | devnull
deriving DecidableEq

/-- The stdout/stderr argument chosen by `start` (source lines 95-96):
`subprocess.PIPE if not self.verbose else None`. -/
def stdioSetting (verbose : Nat) : StdioDest :=
  if verbose = 0 then .pipe else .inherit

/-- One readiness probe (`_probe_comfyui_server`, source lines 20-30) at
attempt `k`: GET `/api/customnode/getmappings?mode=nickname` then GET
`/api/object_info`; the probe succeeds iff both succeed. -/
def _probe_comfyui_server (probe1 probe2 : Nat → Bool) (k : Nat) : Bool :=
  probe1 k && probe2 k

/-- The loop of `_wait_for_startup` (source lines 156-165) at attempt `k`
with `fuel` seconds of the time budget left: while time remains, try the
probe and return on success, else sleep 1 second and retry; on exhaustion
raise `TimeoutError("ComfyUI server failed to start")`.  Returns the error
(if any) and the number of probe attempts performed. -/
def waitGo (probeOk : Nat → Bool) (k : Nat) : Nat → Option PyError × Nat
  | 0 => (some (.timeoutError "ComfyUI server failed to start"), 0)
  | fuel + 1 =>
    if probeOk k then (none, 1)
    else
      let rest := waitGo probeOk (k + 1) fuel
      (rest.1, rest.2 + 1)

/-- `_wait_for_startup` with its `timeout` parameter (default 1800 at the
call site in `start`). -/
def _wait_for_startup (probeOk : Nat → Bool) (timeout : Nat) : Option PyError × Nat :=
  waitGo probeOk 0 timeout

/-- The mutable state of a `ComfyUIServer`: its current port, verbosity and
the internal subprocess handle (`self.proc`, a pid when running). -/
structure ServerState where
  port : Nat
  verbose : Nat
  proc : Option Nat
deriving DecidableEq

/-- What `stop` did: whether `terminate()` was sent, how many seconds the
graceful `wait` blocked, and whether `kill()` was sent. -/
structure StopTrace where
  terminated : Bool
  gracefulWaitSecs : Nat
  killed : Bool
deriving DecidableEq

/-- Whether a process that exits `exitAfter` seconds after `terminate()`
(`none` = never) exits within the 5-second grace period of `proc.wait`. -/
def exitsInGrace : Option Nat → Bool
  | some t => t ≤ 5
  | none => false

/-- `ComfyUIServer.stop` (source lines 105-113): no-op when `self.proc` is
`None`; otherwise `terminate()`, `wait(timeout=5)`, `kill()` on
`TimeoutExpired`, and finally `self.proc = None`.  `exitAfter` is the
environment: how long the process takes to exit after the graceful signal. -/
def stop (exitAfter : Option Nat) (s : ServerState) : ServerState × StopTrace :=
  match s.proc with
  | none => (s, ⟨false, 0, false⟩)
  | some _ =>
    match exitAfter with
    | some t =>
      if t ≤ 5 then ({ s with proc := none }, ⟨true, t, false⟩)
      else ({ s with proc := none }, ⟨true, 5, true⟩)
    | none => ({ s with proc := none }, ⟨true, 5, true⟩)

/-- The port re-allocation loop of `start` (source lines 81-82):
`while _is_port_in_use(self.port): self.port = random.randint(10000, 65535)`.
`draws` is the stream of random draws, `i` the index of the next draw and
`fuel` bounds the number of redraws; `none` marks the (possible)
non-termination of the Python loop when the budget is exhausted with the
candidate still in use. -/
def allocLoop (inUse : Nat → Bool) (draws : Nat → Nat) : Nat → Nat → Nat → Option Nat
  | current, _, 0 => if inUse current then none else some current
  | current, i, fuel + 1 =>
    if inUse current then allocLoop inUse draws (draws i) (i + 1) fuel
    else some current

/-- The environment of one `start` call: the loop-back connect behaviour per
port, the stream of random port draws (with a redraw budget), the per-attempt
outcomes of the two readiness endpoints, the pid the spawn produces, and how
long the process takes to exit after a graceful signal (used by the `stop`
on the failure path). -/
structure StartEnv where
  connect : Nat → ConnectOutcome
  draws : Nat → Nat
  drawFuel : Nat
  probe1 : Nat → Bool
  probe2 : Nat → Bool
  pid : Nat
  exitAfter : Option Nat

/-- What `subprocess.Popen` was called with: the allocated port (exported as
`COMFY_PORT`), the stdout/stderr destinations, and whether a verbosity flag
was appended to the argument list. -/
structure SpawnInfo where
  port : Nat
  stdout : StdioDest
  stderr : StdioDest
  verboseFlag : Bool
deriving DecidableEq

/-- The observable result of a `start` call: the final `self` state, the
raised error (if any), the spawn that happened (if any), the number of
readiness probe attempts made before returning, and the trace of the `stop`
invoked on the failure path (if any). -/
structure StartResult where
  state : ServerState
  error : Option PyError
  spawned : Option SpawnInfo
  probeAttempts : Nat
  stopTrace : Option StopTrace
deriving DecidableEq

/-- `ComfyUIServer.start` (source lines 76-103): return at once if
`self.proc` is not `None`; re-draw the port while it is in use; spawn the
subprocess with the port in its environment and stdout/stderr per
`stdioSetting`; then `_wait_for_startup(self.host, self.port)` (timeout
1800); on any exception there, `self.stop()` and raise
`RuntimeError("Failed to start ComfyUI server: ...")`.  The result is `none`
when the port loop exhausts its redraw budget (the Python loop not
terminating); the spawn itself is assumed to succeed. -/
def start (env : StartEnv) (s : ServerState) : Option StartResult :=
  match s.proc with
  | some _ => some ⟨s, none, none, 0, none⟩
  | none =>
    match allocLoop (_is_port_in_use env.connect) env.draws s.port 0 env.drawFuel with
    | none => none
    | some p =>
      let info : SpawnInfo := ⟨p, stdioSetting s.verbose, stdioSetting s.verbose, s.verbose != 0⟩
      let s1 : ServerState := { s with port := p, proc := some env.pid }
      let w := _wait_for_startup (_probe_comfyui_server env.probe1 env.probe2) 1800
      match w.1 with
      | none => some ⟨s1, none, some info, w.2, none⟩
      | some e =>
        let st := stop env.exitAfter s1
        some ⟨st.1, some (.runtimeError ("Failed to start ComfyUI server: " ++ e.str)),
          some info, w.2, some st.2⟩

/-- `ComfyUIServer.execute_workflow` (source lines 115-154): default the
session id to a fresh uuid when empty, create `workspace/output/<session>`,
call `run_workflow` with that output directory, and wrap any exception into
`RuntimeError("Workflow execution failed: ...")` (this `except Exception`
catches `TimeoutError` as well). -/
def execute_workflow (eng : Engine) (s : ServerState) (workspace : String)
    (session_id : String) (uuid : String) (timeout : Nat) :
    Except PyError String × List Event :=
  let sid := if session_id = "" then uuid else session_id
  let dir := workspace ++ "/output/" ++ sid
  let r := run_workflow eng "127.0.0.1" s.port (some dir) timeout s.verbose workspace uuid
  (match r.1 with
   | .ok v => .ok v
   | .error e => .error (.runtimeError ("Workflow execution failed: " ++ e.str)),
   .mkdir dir :: r.2)

/-- `execute_remote_workflow` (source lines 167-204): parse host and port
out of the URL (`urllib.parse.urlparse`, modelled by the `hostOf`/`portOf`
parameters including the `or "localhost"` / `or 8188` defaults), call
`run_workflow` with no output directory (so it creates
`./output/<uuid4>`), and wrap any exception into
`RuntimeError("Remote workflow execution failed: ...")`.  The `session_id`
parameter is accepted and never used, exactly as in the source. -/
def execute_remote_workflow (eng : Engine) (hostOf : String → String) (portOf : String → Nat)
    (server_url : String) (uuid : String) (session_id : String) (timeout : Nat) :
    Except PyError String × List Event :=
  let host := hostOf server_url
  let port := portOf server_url
  let r := run_workflow eng host port none timeout 0 "." uuid
  (match r.1 with
   | .ok v => .ok v
   | .error e => .error (.runtimeError ("Remote workflow execution failed: " ++ e.str)),
   r.2)

/-- A heap of Python objects: `store` maps addresses to values, `next` is
the next fresh address (every address below `next` is allocated). -/
structure Heap (α : Type) where
  store : Nat → α
  next : Nat

/-- Dereference an address. -/
def Heap.read (h : Heap α) (a : Nat) : α :=
  h.store a

/-- Mutate the object at address `a` in place. -/
def Heap.write (h : Heap α) (a : Nat) (v : α) : Heap α :=
  ⟨fun i => if i = a then v else h.store i, h.next⟩

/-- `copy.deepcopy(workflow)` (source line 243): allocate a fresh address
holding the same value and return it; the copy shares no mutable structure
with the original. -/
def deepcopy (h : Heap α) (a : Nat) : Heap α × Nat :=
  (⟨fun i => if i = h.next then h.store a else h.store i, h.next + 1⟩, h.next)

/-- Modelled from the spec: `populate_workflow` lives in
`comfy_pack.utils`, which is not under `src/`; per the spec it populates
the caller-supplied inputs and output paths into the workflow it is given —
modelled as an in-place update of the workflow object at address `a` by an
arbitrary value transformation `f`. -/
def populate_workflow (f : α → α) (h : Heap α) (a : Nat) : Heap α :=
  h.write a (f (h.read a))

/-- The workflow-preparation step of `run_workflow` (source lines 242-244):
`workflow = copy.deepcopy(workflow)` then
`workflow = populate_workflow(workflow, output_dir, **kwargs)`.  Returns
the resulting heap and the address the populated copy lives at. -/
def prepare_workflow (f : α → α) (h : Heap α) (a : Nat) : Heap α × Nat :=
  let hc := deepcopy h a
  (populate_workflow f hc.1 hc.2, hc.2)

/-! Helper lemmas about the loops. -/

/-- If the readiness probe fails at every attempt inside the window, the
startup wait raises `TimeoutError` after exhausting the budget, having made
one probe attempt per second of budget. -/
theorem waitGo_allFalse (probeOk : Nat → Bool) (fuel k : Nat)
    (h : ∀ j, k ≤ j → j < k + fuel → probeOk j = false) :
    waitGo probeOk k fuel = (some (.timeoutError "ComfyUI server failed to start"), fuel) := by
  induction fuel generalizing k with
  | zero => rfl
  | succ n ih =>
    have hk : probeOk k = false := h k le_rfl (by omega)
    have hrest := ih (k + 1) (fun j h1 h2 => h j (by omega) (by omega))
    simp [waitGo, hk, hrest]

/-- If the startup wait returns without error, some attempt inside the
window saw the probe succeed, and at least one probe attempt was made. -/
theorem waitGo_none_probe (probeOk : Nat → Bool) (fuel k : Nat)
    (h : (waitGo probeOk k fuel).1 = none) :
    1 ≤ (waitGo probeOk k fuel).2 ∧ ∃ j, k ≤ j ∧ j < k + fuel ∧ probeOk j = true := by
  induction fuel generalizing k with
  | zero => simp [waitGo] at h
  | succ n ih =>
    by_cases hk : probeOk k = true
    · exact ⟨by simp [waitGo, hk], k, le_rfl, by omega, hk⟩
    · have hk' : probeOk k = false := by simpa using hk
      have h' : (waitGo probeOk (k + 1) n).1 = none := by
        simpa [waitGo, hk'] using h
      obtain ⟨h1, j, hj1, hj2, hj3⟩ := ih (k + 1) h'
      exact ⟨by simp [waitGo, hk'], j, by omega, by omega, hj3⟩

/-- A port returned by the re-allocation loop is reported free by the
in-use check. -/
theorem allocLoop_free (inUse : Nat → Bool) (draws : Nat → Nat)
    (fuel current i p : Nat)
    (h : allocLoop inUse draws current i fuel = some p) :
    inUse p = false := by
  induction fuel generalizing current i with
  | zero =>
    by_cases hc : inUse current = true
    · simp [allocLoop, hc] at h
    · have hc' : inUse current = false := by simpa using hc
      simp [allocLoop, hc'] at h
      simpa [← h] using hc'
  | succ n ih =>
    by_cases hc : inUse current = true
    · exact ih (draws i) (i + 1) (by simpa [allocLoop, hc] using h)
    · have hc' : inUse current = false := by simpa using hc
      simp [allocLoop, hc'] at h
      simpa [← h] using hc'

/-- If the completion-poll loop succeeds, some fetch inside the window
returned a history record with a non-empty outputs collection. -/
theorem pollGo_ok_nonempty (eng : Engine) (pid : String) (fuel k : Nat)
    (h : (pollGo eng pid k fuel).1 = .ok ()) :
    ∃ j rec outs, k ≤ j ∧ j < k + fuel ∧ eng.history j = .ok rec ∧
      rec.lookup "outputs" = some outs ∧ outs ≠ [] := by
  induction fuel generalizing k with
  | zero => simp [pollGo] at h
  | succ n ih =>
    rcases hh : eng.history k with e | record
    · simp [pollGo, hh] at h
    · rcases hl : record.lookup "outputs" with _ | outs
      · simp [pollGo, hh, hl] at h
      · by_cases he : outs.isEmpty
        · have h' : (pollGo eng pid (k + 1) n).1 = .ok () := by
            simpa [pollGo, hh, hl, he] using h
          obtain ⟨j, rec, outs', hj1, hj2, h1, h2, h3⟩ := ih (k + 1) h'
          exact ⟨j, rec, outs', by omega, by omega, h1, h2, h3⟩
        · refine ⟨k, record, outs, le_rfl, by omega, hh, hl, ?_⟩
          intro hnil
          simp [hnil] at he

/-- If every fetch inside the window returns a record whose outputs
collection is empty, the completion-poll loop raises `ExecutionTimeout`. -/
theorem pollGo_allEmpty (eng : Engine) (pid : String) (fuel k : Nat)
    (h : ∀ j, k ≤ j → j < k + fuel →
      ∃ rec, eng.history j = .ok rec ∧ rec.lookup "outputs" = some ([] : Outputs)) :
    (pollGo eng pid k fuel).1 = .error (.timeoutError "Workflow execution timed out") := by
  induction fuel generalizing k with
  | zero => rfl
  | succ n ih =>
    obtain ⟨rec, hh, hl⟩ := h k le_rfl (by omega)
    have hrest := ih (k + 1) (fun j h1 h2 => h j (by omega) (by omega))
    simp [pollGo, hh, hl, hrest]

/-- When `self.proc` is a live handle, `stop` terminates it, waits at most
the 5-second grace period, kills exactly when the process does not exit in
grace, and clears the handle. -/
theorem stop_running_spec (ea : Option Nat) (s : ServerState) (p : Nat)
    (hp : s.proc = some p) :
    (stop ea s).1.proc = none ∧ (stop ea s).2.terminated = true ∧
      (stop ea s).2.gracefulWaitSecs ≤ 5 ∧ (stop ea s).2.killed = !exitsInGrace ea := by
  rcases ea with _ | t
  · simp [stop, hp, exitsInGrace]
  · by_cases ht : t ≤ 5
    · simp [stop, hp, exitsInGrace, ht]
    · simp [stop, hp, exitsInGrace, ht]

/-! Claim theorems. -/

/-- C1: if the two readiness endpoints never both succeed within the
1800-second startup window, `ComfyUIServer.start` raises
`RuntimeError("Failed to start ComfyUI server: ...")` and afterwards the
subprocess is no longer running: the internal process handle is cleared
(by the `stop()` on the failure path, which sent the termination signal)
before the error propagates. -/
theorem c1_startup_timeout_stops_process (env : StartEnv) (s : ServerState)
    (r : StartResult) (hproc : s.proc = none)
    (hprobe : ∀ k, k < 1800 → _probe_comfyui_server env.probe1 env.probe2 k = false)
    (hr : start env s = some r) :
    r.error = some (.runtimeError
      "Failed to start ComfyUI server: ComfyUI server failed to start") ∧
    r.state.proc = none ∧
    r.stopTrace.map StopTrace.terminated = some true := by
  have hw : _wait_for_startup (_probe_comfyui_server env.probe1 env.probe2) 1800 =
      (some (.timeoutError "ComfyUI server failed to start"), 1800) :=
    waitGo_allFalse _ 1800 0 (fun j _ hj => hprobe j (by omega))
  rcases ha : allocLoop (_is_port_in_use env.connect) env.draws s.port 0 env.drawFuel
    with _ | p
  · have : start env s = none := by simp [start, hproc, ha]
    rw [this] at hr
    cases hr
  · have hs : start env s = some
        ⟨(stop env.exitAfter { s with port := p, proc := some env.pid }).1,
         some (.runtimeError "Failed to start ComfyUI server: ComfyUI server failed to start"),
         some ⟨p, stdioSetting s.verbose, stdioSetting s.verbose, s.verbose != 0⟩, 1800,
         some (stop env.exitAfter { s with port := p, proc := some env.pid }).2⟩ := by
      simp [start, hproc, ha, hw, PyError.str]
    rw [hs] at hr
    injection hr with h
    subst h
    have hspec := stop_running_spec env.exitAfter
      { s with port := p, proc := some env.pid } env.pid rfl
    exact ⟨rfl, hspec.1, by simp [hspec.2.1]⟩

/-- Environment for the C1 witness: every port reports free, both readiness
endpoints fail at every attempt, and the process exits one second after the
graceful signal. -/
def c1Env : StartEnv :=
  ⟨fun _ => .refused, fun _ => 10000, 0, fun _ => false, fun _ => false, 77, some 1⟩

/-- Initial server state for the C1 witness. -/
def c1State : ServerState := ⟨20000, 0, none⟩

/-- The concrete result of `start c1Env c1State`. -/
def c1Result : StartResult :=
  ⟨⟨20000, 0, none⟩,
   some (.runtimeError "Failed to start ComfyUI server: ComfyUI server failed to start"),
   some ⟨20000, .pipe, .pipe, false⟩, 1800, some ⟨true, 1, false⟩⟩

/-- Witness for C1 at a concrete environment in which the probes never
succeed. -/
theorem c1_startup_timeout_stops_process_witness :
    start c1Env c1State = some c1Result ∧
    (c1Result.error = some (.runtimeError
       "Failed to start ComfyUI server: ComfyUI server failed to start") ∧
     c1Result.state.proc = none ∧
     c1Result.stopTrace.map StopTrace.terminated = some true) := by
  have hw : _wait_for_startup (_probe_comfyui_server (fun _ => false) (fun _ => false)) 1800 =
      (some (.timeoutError "ComfyUI server failed to start"), 1800) :=
    waitGo_allFalse _ 1800 0 (fun j _ _ => rfl)
  have h : start c1Env c1State = some c1Result := by
    simp [start, c1Env, c1State, c1Result, allocLoop, _is_port_in_use, hw, stop,
      stdioSetting, PyError.str]
  exact ⟨h, c1_startup_timeout_stops_process c1Env c1State c1Result rfl (fun k _ => rfl) h⟩

/-- C2: if the submission response body lacks the "prompt_id" field,
`run_workflow` raises the submission failure (the `KeyError` wrapped into
`RuntimeError("Workflow execution failed: ...")`) and no status-poll
request is ever issued for that job. -/
theorem c2_missing_prompt_id_no_poll (eng : Engine) (host : String) (port : Nat)
    (od : Option String) (timeout verbose : Nat) (ws uuid : String) (body : JsonObj)
    (hsub : eng.submitResp = .ok body)
    (hpid : body.lookup "prompt_id" = none) :
    (run_workflow eng host port od timeout verbose ws uuid).1 =
      .error (.runtimeError ("Workflow execution failed: " ++
        (PyError.keyError "prompt_id").str)) ∧
    ((run_workflow eng host port od timeout verbose ws uuid).2.all
      fun e => !e.isPollReq) = true := by
  rcases od with _ | d <;>
    simp [run_workflow, run_workflow_try, hsub, hpid, Event.isPollReq]

/-- Engine for the C2 witness: the submission response carries no
"prompt_id" field. -/
def c2Eng : Engine := ⟨.ok [("foo", "bar")], fun _ => .ok [("outputs", [])], "r"⟩

/-- Witness for C2 at a concrete engine whose submission response has no
job identifier. -/
theorem c2_missing_prompt_id_no_poll_witness :
    c2Eng.submitResp = .ok [("foo", "bar")] ∧
    ((run_workflow c2Eng "127.0.0.1" 8188 none 3 0 "." "u").1 =
       .error (.runtimeError ("Workflow execution failed: " ++
         (PyError.keyError "prompt_id").str)) ∧
     ((run_workflow c2Eng "127.0.0.1" 8188 none 3 0 "." "u").2.all
       fun e => !e.isPollReq) = true) :=
  ⟨rfl, c2_missing_prompt_id_no_poll c2Eng "127.0.0.1" 8188 none 3 0 "." "u"
    [("foo", "bar")] rfl (by decide)⟩

/-- C3: the completion poller signals success only after a fetched history
record reports a non-empty outputs collection; a fetch whose outputs are
empty is followed by a 1-second pause and a retry; and if every fetch
within the timeout window reports empty outputs, the run raises
`TimeoutError("Workflow execution timed out")`. -/
theorem c3_poll_loop_semantics (eng : Engine) (host : String) (port : Nat)
    (od : Option String) (timeout verbose : Nat) (ws uuid : String) :
    (∀ v, (run_workflow eng host port od timeout verbose ws uuid).1 = .ok v →
      ∃ k rec outs, k < timeout ∧ eng.history k = .ok rec ∧
        rec.lookup "outputs" = some outs ∧ outs ≠ []) ∧
    (∀ pid k fuel rec, eng.history k = .ok rec →
      rec.lookup "outputs" = some ([] : Outputs) →
      pollGo eng pid k (fuel + 1) =
        ((pollGo eng pid (k + 1) fuel).1,
         .pollReq pid k :: .sleep 1 :: (pollGo eng pid (k + 1) fuel).2)) ∧
    (∀ body pid, eng.submitResp = .ok body → body.lookup "prompt_id" = some pid →
      (∀ k, k < timeout →
        ∃ rec, eng.history k = .ok rec ∧ rec.lookup "outputs" = some ([] : Outputs)) →
      (run_workflow eng host port od timeout verbose ws uuid).1 =
        .error (.timeoutError "Workflow execution timed out")) := by
  refine ⟨?_, ?_, ?_⟩
  · intro v hv
    rcases hsub : eng.submitResp with e | body
    · simp [run_workflow, run_workflow_try, hsub] at hv
    · rcases hpid : body.lookup "prompt_id" with _ | pid
      · simp [run_workflow, run_workflow_try, hsub, hpid] at hv
      · rcases hpoll : (pollGo eng pid 0 timeout).1 with e | u
        · rcases e <;> simp [run_workflow, run_workflow_try, hsub, hpid, hpoll] at hv
        · obtain ⟨j, rec, outs, _, hj2, h1, h2, h3⟩ :=
            pollGo_ok_nonempty eng pid timeout 0 hpoll
          exact ⟨j, rec, outs, by omega, h1, h2, h3⟩
  · intro pid k fuel rec hh hl
    simp [pollGo, hh, hl]
  · intro body pid hsub hpid hall
    have hp := pollGo_allEmpty eng pid timeout 0 (fun j _ hj => hall j (by omega))
    simp [run_workflow, run_workflow_try, hsub, hpid, hp]

/-- Engine for the C3 witness: submission yields "abc123"; the first two
polls report empty outputs, the third a non-empty outputs collection. -/
def c3Eng : Engine :=
  ⟨.ok [("prompt_id", "abc123")],
   fun k => if k < 2 then .ok [("outputs", [])]
            else .ok [("outputs", [("image", "out.png")])],
   "resolved"⟩

/-- Engine for the C3 witness whose polls always report empty outputs. -/
def c3EngEmpty : Engine :=
  ⟨.ok [("prompt_id", "abc123")], fun _ => .ok [("outputs", [])], "resolved"⟩

/-- Witness for C3: the empty-outputs fetch pauses 1 second and retries;
the all-empty engine times out; the engine that reports outputs on the
third poll completes successfully. -/
theorem c3_poll_loop_semantics_witness :
    pollGo c3Eng "abc123" 0 3 =
      ((pollGo c3Eng "abc123" 1 2).1,
       .pollReq "abc123" 0 :: .sleep 1 :: (pollGo c3Eng "abc123" 1 2).2) ∧
    (run_workflow c3EngEmpty "127.0.0.1" 8188 none 3 0 "." "u").1 =
      .error (.timeoutError "Workflow execution timed out") ∧
    (run_workflow c3Eng "127.0.0.1" 8188 none 3 0 "." "u").1 = .ok "resolved" := by
  refine ⟨?_, ?_, by decide⟩
  · exact (c3_poll_loop_semantics c3Eng "127.0.0.1" 8188 none 3 0 "." "u").2.1
      "abc123" 0 2 [("outputs", [])] (by decide) (by decide)
  · exact (c3_poll_loop_semantics c3EngEmpty "127.0.0.1" 8188 none 3 0 "." "u").2.2
      [("prompt_id", "abc123")] "abc123" rfl (by decide)
      (fun k hk => ⟨[("outputs", [])], rfl, by decide⟩)

/-- Engine for C4: submission succeeds with id "p" but every poll reports
empty outputs, so a 1-second budget times out. -/
def c4Eng : Engine := ⟨.ok [("prompt_id", "p")], fun _ => .ok [("outputs", [])], "r"⟩

/-- C4 counterexample: the completion poller raises `ExecutionTimeout`
(`run_workflow` passes it through unwrapped), yet `execute_workflow`
surfaces it wrapped into `RuntimeError`, not as the timeout kind — refuting
the claim that an `ExecutionTimeout` surfaces from `execute_workflow`
unwrapped. -/
theorem c4_counterexample :
    (run_workflow c4Eng "127.0.0.1" 8188 (some "ws/output/u") 1 0 "ws" "u").1 =
      .error (.timeoutError "Workflow execution timed out") ∧
    (execute_workflow c4Eng ⟨8188, 0, some 1⟩ "ws" "" "u" 1).1 =
      .error (.runtimeError "Workflow execution failed: Workflow execution timed out") ∧
    (execute_workflow c4Eng ⟨8188, 0, some 1⟩ "ws" "" "u" 1).1 ≠
      .error (.timeoutError "Workflow execution timed out") := by decide

/-- C4 (amended): `run_workflow` passes an `ExecutionTimeout` through
unmodified and wraps every other failure of the submit/poll stages into
`RuntimeError` with the cause's message attached; `execute_workflow` then
wraps every failure it sees — including the poller's `ExecutionTimeout` —
into its own `RuntimeError` kind with the cause's message attached, so the
timeout kind does not survive `execute_workflow` unwrapped. -/
theorem c4_wrapping_behaviour (eng : Engine) (host : String) (port : Nat)
    (od : Option String) (timeout verbose : Nat) (ws uuid : String)
    (s : ServerState) (sid u2 : String) :
    (∀ m, (run_workflow_try eng timeout).1 = .error (.timeoutError m) →
      (run_workflow eng host port od timeout verbose ws uuid).1 =
        .error (.timeoutError m)) ∧
    (∀ e, (run_workflow_try eng timeout).1 = .error e → (∀ m, e ≠ .timeoutError m) →
      (run_workflow eng host port od timeout verbose ws uuid).1 =
        .error (.runtimeError ("Workflow execution failed: " ++ e.str))) ∧
    (∀ e, (run_workflow eng "127.0.0.1" s.port
        (some (ws ++ "/output/" ++ (if sid = "" then u2 else sid)))
        timeout s.verbose ws u2).1 = .error e →
      (execute_workflow eng s ws sid u2 timeout).1 =
        .error (.runtimeError ("Workflow execution failed: " ++ e.str))) := by
  refine ⟨?_, ?_, ?_⟩
  · intro m hm
    simp [run_workflow, hm]
  · intro e he hne
    rcases e with k | m | t | m
    · simp [run_workflow, he]
    · exact absurd rfl (hne m)
    · simp [run_workflow, he]
    · simp [run_workflow, he]
  · intro e he
    simp only [execute_workflow]
    rw [he]

/-- Witness for C4 at the concrete engine whose poll loop times out:
`execute_workflow` wraps the poller's timeout into `RuntimeError`. -/
theorem c4_wrapping_behaviour_witness :
    (execute_workflow c4Eng ⟨8188, 0, some 1⟩ "ws" "" "u" 1).1 =
      .error (.runtimeError ("Workflow execution failed: " ++
        (PyError.timeoutError "Workflow execution timed out").str)) :=
  (c4_wrapping_behaviour c4Eng "127.0.0.1" 8188 none 1 0 "ws" "u"
    ⟨8188, 0, some 1⟩ "" "u").2.2
    (.timeoutError "Workflow execution timed out") (by decide)

/-- Environment for C5: every port free, both readiness endpoints succeed
on the first attempt. -/
def c5Env : StartEnv :=
  ⟨fun _ => .refused, fun _ => 10000, 0, fun _ => true, fun _ => true, 77, none⟩

/-- Initial server state for C5. -/
def c5State : ServerState := ⟨20000, 0, none⟩

/-- The concrete result of `start c5Env c5State`. -/
def c5Result : StartResult :=
  ⟨⟨20000, 0, some 77⟩, none, some ⟨20000, .pipe, .pipe, false⟩, 1, none⟩

/-- C5 counterexample: a successful `start` call that performed a readiness
probe before returning — refuting the claim that `start` returns
immediately after spawning with no readiness probing. -/
theorem c5_counterexample :
    start c5Env c5State = some c5Result ∧ c5Result.error = none ∧
    c5Result.probeAttempts ≠ 0 := by decide

/-- C5 (amended): `start` does not return immediately after spawning: it
blocks probing the readiness endpoints, and a successful return implies at
least one probe attempt was made and some attempt within the 1800-second
window saw both endpoints succeed. -/
theorem c5_start_blocks_until_ready (env : StartEnv) (s : ServerState) (r : StartResult)
    (hproc : s.proc = none) (hr : start env s = some r) (hok : r.error = none) :
    1 ≤ r.probeAttempts ∧
    ∃ k, k < 1800 ∧ _probe_comfyui_server env.probe1 env.probe2 k = true := by
  rcases ha : allocLoop (_is_port_in_use env.connect) env.draws s.port 0 env.drawFuel
    with _ | p
  · have : start env s = none := by simp [start, hproc, ha]
    rw [this] at hr
    cases hr
  · rcases hw : _wait_for_startup (_probe_comfyui_server env.probe1 env.probe2) 1800
      with ⟨we, wn⟩
    have h1 : (waitGo (_probe_comfyui_server env.probe1 env.probe2) 0 1800).1 = we := by
      rw [show waitGo (_probe_comfyui_server env.probe1 env.probe2) 0 1800
          = _wait_for_startup (_probe_comfyui_server env.probe1 env.probe2) 1800 from rfl, hw]
    have h2 : (waitGo (_probe_comfyui_server env.probe1 env.probe2) 0 1800).2 = wn := by
      rw [show waitGo (_probe_comfyui_server env.probe1 env.probe2) 0 1800
          = _wait_for_startup (_probe_comfyui_server env.probe1 env.probe2) 1800 from rfl, hw]
    rcases we with _ | e
    · have hs : start env s = some
          ⟨{ s with port := p, proc := some env.pid }, none,
           some ⟨p, stdioSetting s.verbose, stdioSetting s.verbose, s.verbose != 0⟩,
           wn, none⟩ := by
        simp [start, hproc, ha, hw]
      rw [hs] at hr
      injection hr with h
      subst h
      obtain ⟨hn, j, _, hj2, hj3⟩ := waitGo_none_probe _ 1800 0 h1
      rw [h2] at hn
      exact ⟨hn, j, by omega, hj3⟩
    · have hs : start env s = some
          ⟨(stop env.exitAfter { s with port := p, proc := some env.pid }).1,
           some (.runtimeError ("Failed to start ComfyUI server: " ++ e.str)),
           some ⟨p, stdioSetting s.verbose, stdioSetting s.verbose, s.verbose != 0⟩,
           wn, some (stop env.exitAfter { s with port := p, proc := some env.pid }).2⟩ := by
        simp [start, hproc, ha, hw]
      rw [hs] at hr
      injection hr with h
      subst h
      simp at hok

/-- Witness for C5 at the concrete environment whose probes succeed at
once: the successful `start` made a probe attempt and readiness was
observed inside the window. -/
theorem c5_start_blocks_until_ready_witness :
    start c5Env c5State = some c5Result ∧
    (1 ≤ c5Result.probeAttempts ∧
     ∃ k, k < 1800 ∧ _probe_comfyui_server c5Env.probe1 c5Env.probe2 k = true) := by
  have h : start c5Env c5State = some c5Result := by decide
  exact ⟨h, c5_start_blocks_until_ready c5Env c5State c5Result rfl h rfl⟩

/-- C6: `stop` is an error-free no-op when no process is running; when one
is running it sends the graceful termination signal, waits at most the
5-second grace period, force-kills exactly when the process does not exit
within grace, and always clears the internal handle, so a repeated `stop`
is a no-op. -/
theorem c6_stop_semantics (ea ea2 : Option Nat) (s : ServerState) :
    (s.proc = none → stop ea s = (s, ⟨false, 0, false⟩)) ∧
    (∀ p, s.proc = some p →
      (stop ea s).1.proc = none ∧ (stop ea s).2.terminated = true ∧
      (stop ea s).2.gracefulWaitSecs ≤ 5 ∧
      (stop ea s).2.killed = !exitsInGrace ea) ∧
    stop ea2 (stop ea s).1 = ((stop ea s).1, ⟨false, 0, false⟩) := by
  refine ⟨?_, ?_, ?_⟩
  · intro h
    simp [stop, h]
  · intro p hp
    exact stop_running_spec ea s p hp
  · rcases hp : s.proc with _ | p
    · simp [stop, hp]
    · have h1 := (stop_running_spec ea s p hp).1
      rcases hst : stop ea s with ⟨s2, tr⟩
      rw [hst] at h1
      simp only at h1 ⊢
      simp [stop, h1]

/-- Witness for C6 at a concrete running server whose process ignores the
graceful signal: the handle is cleared, the kill is sent, and the second
`stop` is a no-op. -/
theorem c6_stop_semantics_witness :
    ((stop none ⟨1234, 0, some 9⟩).1.proc = none ∧
     (stop none ⟨1234, 0, some 9⟩).2.terminated = true ∧
     (stop none ⟨1234, 0, some 9⟩).2.gracefulWaitSecs ≤ 5 ∧
     (stop none ⟨1234, 0, some 9⟩).2.killed = !exitsInGrace none) ∧
    stop (some 2) (stop none ⟨1234, 0, some 9⟩).1 =
      ((stop none ⟨1234, 0, some 9⟩).1, ⟨false, 0, false⟩) :=
  ⟨(c6_stop_semantics none (some 2) ⟨1234, 0, some 9⟩).2.1 9 rfl,
   (c6_stop_semantics none (some 2) ⟨1234, 0, some 9⟩).2.2⟩

/-- C7: the port the engine subprocess is launched on is never one the
in-use check found occupied: `start` re-draws candidates until the check
reports one free, and spawns with that port, so for every spawn the check
reports the port free and the loop-back connect to it was not accepted. -/
theorem c7_spawned_port_free (env : StartEnv) (s : ServerState) (r : StartResult)
    (info : SpawnInfo) (hr : start env s = some r) (hsp : r.spawned = some info) :
    _is_port_in_use env.connect info.port = false ∧
    env.connect info.port ≠ .success := by
  rcases hproc : s.proc with _ | q
  · rcases ha : allocLoop (_is_port_in_use env.connect) env.draws s.port 0 env.drawFuel
      with _ | p
    · have : start env s = none := by simp [start, hproc, ha]
      rw [this] at hr
      cases hr
    · have hport : info.port = p := by
        rcases hw : _wait_for_startup (_probe_comfyui_server env.probe1 env.probe2) 1800
          with ⟨we, wn⟩
        rcases we with _ | e
        · have hs : start env s = some
              ⟨{ s with port := p, proc := some env.pid }, none,
               some ⟨p, stdioSetting s.verbose, stdioSetting s.verbose, s.verbose != 0⟩,
               wn, none⟩ := by
            simp [start, hproc, ha, hw]
          rw [hs] at hr
          injection hr with h
          subst h
          simp at hsp
          rw [← hsp]
        · have hs : start env s = some
              ⟨(stop env.exitAfter { s with port := p, proc := some env.pid }).1,
               some (.runtimeError ("Failed to start ComfyUI server: " ++ e.str)),
               some ⟨p, stdioSetting s.verbose, stdioSetting s.verbose, s.verbose != 0⟩,
               wn, some (stop env.exitAfter { s with port := p, proc := some env.pid }).2⟩ := by
            simp [start, hproc, ha, hw]
          rw [hs] at hr
          injection hr with h
          subst h
          simp at hsp
          rw [← hsp]
      have hfree : _is_port_in_use env.connect p = false :=
        allocLoop_free (_is_port_in_use env.connect) env.draws env.drawFuel s.port 0 p ha
      rw [hport]
      refine ⟨hfree, ?_⟩
      intro hcon
      rw [_is_port_in_use, hcon] at hfree
      cases hfree
  · have hs : start env s = some ⟨s, none, none, 0, none⟩ := by
      simp [start, hproc]
    rw [hs] at hr
    injection hr with h
    subst h
    cases hsp

/-- Environment for C7, following the spec scenario: port 45000 is bound by
a live listener; the single redraw yields the free port 30000. -/
def c7Env : StartEnv :=
  ⟨fun p => if p = 45000 then .success else .refused, fun _ => 30000, 1,
   fun _ => true, fun _ => true, 77, none⟩

/-- Initial server state for C7, holding the occupied port 45000. -/
def c7State : ServerState := ⟨45000, 0, none⟩

/-- The concrete result of `start c7Env c7State`: the spawn uses 30000. -/
def c7Result : StartResult :=
  ⟨⟨30000, 0, some 77⟩, none, some ⟨30000, .pipe, .pipe, false⟩, 1, none⟩

/-- Witness for C7: with 45000 occupied, `start` selects and spawns on the
free port 30000, whose loop-back connect was not accepted. -/
theorem c7_spawned_port_free_witness :
    start c7Env c7State = some c7Result ∧
    (_is_port_in_use c7Env.connect 30000 = false ∧
     c7Env.connect 30000 ≠ .success) := by
  have h : start c7Env c7State = some c7Result := by decide
  exact ⟨h, c7_spawned_port_free c7Env c7State c7Result ⟨30000, .pipe, .pipe, false⟩ h rfl⟩

/-- Environment for C8: every port free, probes succeed at once. -/
def c8Env : StartEnv :=
  ⟨fun _ => .refused, fun _ => 10000, 0, fun _ => true, fun _ => true, 77, none⟩

/-- Server state for C8 with verbosity zero. -/
def c8State : ServerState := ⟨20000, 0, none⟩

/-- The concrete result of `start c8Env c8State`. -/
def c8Result : StartResult :=
  ⟨⟨20000, 0, some 77⟩, none, some ⟨20000, .pipe, .pipe, false⟩, 1, none⟩

/-- C8 counterexample: at verbosity zero the spawn's standard output and
standard error go to a captured pipe, not to the discard sink the claim
names. -/
theorem c8_counterexample :
    start c8Env c8State = some c8Result ∧
    c8State.verbose = 0 ∧
    c8Result.spawned = some ⟨20000, .pipe, .pipe, false⟩ ∧
    StdioDest.pipe ≠ StdioDest.devnull := by decide

/-- C8 (amended): at verbosity zero the subprocess's standard output and
standard error are redirected to a captured pipe (`subprocess.PIPE`, not a
discard sink); at nonzero verbosity they are inherited from the parent; and
the verbosity flag is appended to the command exactly when verbosity is
nonzero. -/
theorem c8_stdio_selection (env : StartEnv) (s : ServerState) (r : StartResult)
    (info : SpawnInfo) (hr : start env s = some r) (hsp : r.spawned = some info) :
    (s.verbose = 0 → info.stdout = .pipe ∧ info.stderr = .pipe) ∧
    (s.verbose ≠ 0 → info.stdout = .inherit ∧ info.stderr = .inherit) ∧
    info.verboseFlag = (s.verbose != 0) := by
  rcases hproc : s.proc with _ | q
  · rcases ha : allocLoop (_is_port_in_use env.connect) env.draws s.port 0 env.drawFuel
      with _ | p
    · have : start env s = none := by simp [start, hproc, ha]
      rw [this] at hr
      cases hr
    · have hinfo : info = ⟨p, stdioSetting s.verbose, stdioSetting s.verbose, s.verbose != 0⟩ := by
        rcases hw : _wait_for_startup (_probe_comfyui_server env.probe1 env.probe2) 1800
          with ⟨we, wn⟩
        rcases we with _ | e
        · have hs : start env s = some
              ⟨{ s with port := p, proc := some env.pid }, none,
               some ⟨p, stdioSetting s.verbose, stdioSetting s.verbose, s.verbose != 0⟩,
               wn, none⟩ := by
            simp [start, hproc, ha, hw]
          rw [hs] at hr
          injection hr with h
          subst h
          simpa using hsp.symm
        · have hs : start env s = some
              ⟨(stop env.exitAfter { s with port := p, proc := some env.pid }).1,
               some (.runtimeError ("Failed to start ComfyUI server: " ++ e.str)),
               some ⟨p, stdioSetting s.verbose, stdioSetting s.verbose, s.verbose != 0⟩,
               wn, some (stop env.exitAfter { s with port := p, proc := some env.pid }).2⟩ := by
            simp [start, hproc, ha, hw]
          rw [hs] at hr
          injection hr with h
          subst h
          simpa using hsp.symm
      subst hinfo
      refine ⟨?_, ?_, rfl⟩
      · intro h0
        simp [stdioSetting, h0]
      · intro h0
        simp [stdioSetting, h0]
  · have hs : start env s = some ⟨s, none, none, 0, none⟩ := by
      simp [start, hproc]
    rw [hs] at hr
    injection hr with h
    subst h
    cases hsp

/-- Server state for the C8 witness with nonzero verbosity. -/
def c8StateV : ServerState := ⟨20000, 2, none⟩

/-- The concrete result of `start c8Env c8StateV`: stdio inherited and the
verbosity flag appended. -/
def c8ResultV : StartResult :=
  ⟨⟨20000, 2, some 77⟩, none, some ⟨20000, .inherit, .inherit, true⟩, 1, none⟩

/-- Witness for C8 at both verbosity levels. -/
theorem c8_stdio_selection_witness :
    start c8Env c8StateV = some c8ResultV ∧
    (c8StateV.verbose ≠ 0 →
      (⟨20000, .inherit, .inherit, true⟩ : SpawnInfo).stdout = .inherit ∧
      (⟨20000, .inherit, .inherit, true⟩ : SpawnInfo).stderr = .inherit) ∧
    (c8State.verbose = 0 →
      (⟨20000, .pipe, .pipe, false⟩ : SpawnInfo).stdout = .pipe ∧
      (⟨20000, .pipe, .pipe, false⟩ : SpawnInfo).stderr = .pipe) := by
  have h : start c8Env c8StateV = some c8ResultV := by decide
  have h0 : start c8Env c8State = some c8Result := by decide
  exact ⟨h,
    (c8_stdio_selection c8Env c8StateV c8ResultV ⟨20000, .inherit, .inherit, true⟩ h rfl).2.1,
    (c8_stdio_selection c8Env c8State c8Result ⟨20000, .pipe, .pipe, false⟩ h0 rfl).1⟩

/-- C9: the workflow-preparation step of `run_workflow` deep-copies the
workflow before populating it, so every object allocated before the call —
in particular the caller-supplied workflow — is left unchanged; all
mutations apply only to the fresh copy, which is the address the prepared
workflow lives at. -/
theorem c9_prepare_preserves_caller {α : Type} (f : α → α) (h : Heap α) (a i : Nat)
    (hi : i < h.next) :
    ((prepare_workflow f h a).1).read i = h.read i ∧
    (prepare_workflow f h a).2 = h.next := by
  have hne : i ≠ h.next := by omega
  refine ⟨?_, rfl⟩
  simp [prepare_workflow, populate_workflow, deepcopy, Heap.read, Heap.write, hne]

/-- Witness for C9 on a one-object heap: the caller's workflow at address 0
is unchanged by preparation. -/
theorem c9_prepare_preserves_caller_witness :
    (0 : Nat) < (⟨fun _ => 10, 1⟩ : Heap Nat).next ∧
    ((prepare_workflow (fun v => v + 1) ⟨fun _ => 10, 1⟩ 0).1).read 0 =
      (⟨fun _ => 10, 1⟩ : Heap Nat).read 0 ∧
    (prepare_workflow (fun v => v + 1) ⟨fun _ => 10, 1⟩ 0).2 =
      (⟨fun _ => 10, 1⟩ : Heap Nat).next :=
  ⟨Nat.zero_lt_one,
   (c9_prepare_preserves_caller (fun v => v + 1) ⟨fun _ => 10, 1⟩ 0 0 Nat.zero_lt_one).1,
   (c9_prepare_preserves_caller (fun v => v + 1) ⟨fun _ => 10, 1⟩ 0 0 Nat.zero_lt_one).2⟩

/-- C10: `execute_remote_workflow` accepts a `session_id` argument and
never uses it: two calls that differ only in the session identifier have
identical results and identical request/storage traces, so the session id
is neither forwarded to the job execution nor used to namespace output
storage in the remote case. -/
theorem c10_session_id_irrelevant (eng : Engine) (hostOf : String → String)
    (portOf : String → Nat) (server_url uuid s1 s2 : String) (timeout : Nat) :
    execute_remote_workflow eng hostOf portOf server_url uuid s1 timeout =
      execute_remote_workflow eng hostOf portOf server_url uuid s2 timeout := rfl

end ComfyPack
